import Mathlib

/-!
Verification of the pg_auto_failover test harness
(`tests/pgautofailover_utils.py`, `tests/network.py`) against its
natural-language specification.

The Python code is shallowly embedded: pure command-building logic becomes
Lean functions; stateful teardown/polling code becomes explicit state
passing, with the behaviour of the outside world (process exits, kernel
netlink operations, wall-clock deadlines) supplied as explicit inputs.
Python exceptions become `Except` values; a `try/except` in the source
becomes a `match` on the `Except` of the guarded call.
-/

namespace PGAutoFailover

/-! ## PGAutoCtl.set_command (tests/pgautofailover_utils.py:2050-2070)

The Python loop

    pgdata = ["--pgdata", self.datadir]
    self.command = [self.program]
    for arg in args:
        if arg == "--":
            self.command += pgdata
        self.command += [arg]
    if "--pgdata" not in self.command:
        self.command += pgdata

is embedded with the loop written as a structural recursion over `args`
(appending, per argument, either `pgdata ++ [arg]` or `[arg]`). -/

/-- One iteration block of the `for arg in args` loop of `set_command`:
the list of strings appended to `self.command` for each `arg`. -/
def insertPgdata (pgdata : List String) : List String → List String
  | [] => []
  | arg :: rest =>
      (if arg = "--" then pgdata ++ [arg] else [arg]) ++ insertPgdata pgdata rest

/-- Embedding of `PGAutoCtl.set_command`: builds the command line for a one-shot
command when no explicit command vector was given at init time
(`self.command` is falsy). -/
def set_command (program datadir : String) (args : List String) : List String :=
  let pgdata := ["--pgdata", datadir]
  let command := program :: insertPgdata pgdata args
  if "--pgdata" ∈ command then command else command ++ pgdata

/-- When init was given an explicit command vector (`argv`), `set_command`
returns it unchanged (`if self.command: return self.command`). -/
def set_command_with_argv (program : String) (argv : List String) : List String :=
  program :: argv

theorem insertPgdata_nil (pgdata : List String) : insertPgdata pgdata [] = [] := rfl

theorem insertPgdata_cons (pgdata : List String) (arg : String) (rest : List String) :
    insertPgdata pgdata (arg :: rest) =
      (if arg = "--" then pgdata ++ [arg] else [arg]) ++ insertPgdata pgdata rest := rfl

/-- If no argument is the `--` separator, the loop copies the args. -/
theorem insertPgdata_no_sep (pgdata : List String) (args : List String)
    (h : "--" ∉ args) : insertPgdata pgdata args = args := by
  induction args with
  | nil => rfl
  | cons a rest ih =>
      have ha : a ≠ "--" := fun hc => h (hc ▸ List.mem_cons_self a rest)
      have hrest : "--" ∉ rest := fun hc => h (List.mem_cons_of_mem a hc)
      simp [insertPgdata, ha, ih hrest]

/-- Splitting the loop at the first `--`. -/
theorem insertPgdata_split (pgdata : List String) (l₁ l₂ : List String)
    (h₁ : "--" ∉ l₁) :
    insertPgdata pgdata (l₁ ++ "--" :: l₂) =
      l₁ ++ pgdata ++ "--" :: insertPgdata pgdata l₂ := by
  induction l₁ with
  | nil => simp [insertPgdata]
  | cons a rest ih =>
      have ha : a ≠ "--" := fun hc => h₁ (hc ▸ List.mem_cons_self a rest)
      have hrest : "--" ∉ rest := fun hc => h₁ (List.mem_cons_of_mem a hc)
      simp only [List.cons_append, insertPgdata_cons, if_neg ha, ih hrest]
      simp

/-- Claim C2 (amended): for a command built without an explicit command
vector, when the caller-supplied arguments do not themselves contain
`--pgdata` and contain *at most one* `--` separator: if a `--` is
present, the `--pgdata <dir>` flag is inserted exactly once, immediately
before the `--`, and is not additionally appended at the end; if no `--`
is present, the flag is appended once at the end.  (The original claim's
"exactly once for every argument list" fails when `--` occurs twice: the
loop inserts the flag before every `--` occurrence.) -/
theorem set_command_pgdata_once (program datadir : String) (args : List String)
    (hp : program ≠ "--pgdata") (hd : datadir ≠ "--pgdata") (ha : "--pgdata" ∉ args) :
    ("--" ∉ args →
        set_command program datadir args = program :: args ++ ["--pgdata", datadir]
          ∧ List.count "--pgdata" (set_command program datadir args) = 1)
    ∧ (∀ l₁ l₂, args = l₁ ++ "--" :: l₂ → "--" ∉ l₁ → "--" ∉ l₂ →
        set_command program datadir args =
          program :: l₁ ++ ["--pgdata", datadir] ++ "--" :: l₂
          ∧ List.count "--pgdata" (set_command program datadir args) = 1) := by
  constructor
  · intro hsep
    have hform : set_command program datadir args =
        program :: args ++ ["--pgdata", datadir] := by
      simp only [set_command]
      rw [insertPgdata_no_sep _ _ hsep]
      have hmem : "--pgdata" ∉ program :: args := by
        intro hc
        rcases List.mem_cons.mp hc with hc | hc
        · exact hp hc.symm
        · exact ha hc
      simp [hmem]
    refine ⟨hform, ?_⟩
    rw [hform]
    have c₀ : List.count "--pgdata" args = 0 := List.count_eq_zero.mpr ha
    simp [List.count_append, List.count_cons, c₀, Ne.symm hp, Ne.symm hd]
  · intro l₁ l₂ hargs h₁ h₂
    subst hargs
    have h₁' : "--pgdata" ∉ l₁ := fun hc => ha (List.mem_append_left _ hc)
    have h₂' : "--pgdata" ∉ l₂ := fun hc =>
      ha (List.mem_append_right _ (List.mem_cons_of_mem _ hc))
    have hform : set_command program datadir (l₁ ++ "--" :: l₂) =
        program :: l₁ ++ ["--pgdata", datadir] ++ "--" :: l₂ := by
      simp only [set_command]
      rw [insertPgdata_split _ _ _ h₁, insertPgdata_no_sep _ _ h₂]
      have hmem : "--pgdata" ∈
          program :: (l₁ ++ (["--pgdata", datadir] ++ "--" :: l₂)) := by
        refine List.mem_cons_of_mem _ ?_
        exact List.mem_append_right _ (by simp)
      simp only [List.append_assoc]
      simp [hmem]
    refine ⟨hform, ?_⟩
    rw [hform]
    have c₁ : List.count "--pgdata" l₁ = 0 := List.count_eq_zero.mpr h₁'
    have c₂ : List.count "--pgdata" l₂ = 0 := List.count_eq_zero.mpr h₂'
    simp [List.count_append, List.count_cons, c₁, c₂, Ne.symm hp, Ne.symm hd]

/-- Claim C2 (counterexample): with two `--` separators in the caller
arguments, the loop inserts `--pgdata <dir>` before *each* occurrence, so
the built vector contains the flag twice — refuting "the built argument
vector always contains the --pgdata <dir> flag exactly once". -/
theorem set_command_two_seps_twice :
    set_command "pg_autoctl" "/tmp/data" ["set", "node", "--", "x", "--", "y"] =
      ["pg_autoctl", "set", "node", "--pgdata", "/tmp/data", "--", "x",
       "--pgdata", "/tmp/data", "--", "y"]
    ∧ List.count "--pgdata"
        (set_command "pg_autoctl" "/tmp/data" ["set", "node", "--", "x", "--", "y"]) = 2 := by
  constructor <;> decide

/-- Witness for `set_command_pgdata_once` at the spec's own example:
args `['set', 'node', '--', 'candidate-priority', '5']` yield the flag at
the `--` position only, exactly once. -/
theorem set_command_pgdata_once_witness :
    set_command "pg_autoctl" "/tmp/pgaf" ["set", "node", "--", "candidate-priority", "5"] =
      "pg_autoctl" :: ["set", "node"] ++ ["--pgdata", "/tmp/pgaf"] ++
        "--" :: ["candidate-priority", "5"]
    ∧ List.count "--pgdata"
        (set_command "pg_autoctl" "/tmp/pgaf" ["set", "node", "--", "candidate-priority", "5"]) = 1 :=
  (set_command_pgdata_once "pg_autoctl" "/tmp/pgaf"
      ["set", "node", "--", "candidate-priority", "5"]
      (by decide) (by decide) (by decide)).2
    ["set", "node"] ["candidate-priority", "5"] rfl (by decide) (by decide)

/-! ## PGAutoCtl.execute (tests/pgautofailover_utils.py:1972-1994)

The external behaviour of the spawned process (the outcome of
`cluster.communicate(proc, timeout)`) is an input: either the timeout
expires (`subprocess.TimeoutExpired` propagates out of the final
`proc.communicate` call) or the process exits with captured output and a
returncode.  A Python `Popen.returncode` is an `Int`: negative when the
process was terminated by a signal. -/

/-- Outcome of waiting on the spawned one-shot process. -/
inductive RunOutcome where
  | timedOut : RunOutcome
  | exited (out err : String) (returncode : Int) : RunOutcome
deriving DecidableEq, Repr

/-- Result of `PGAutoCtl.execute`: either a raised exception
(timeout, or `CalledProcessError(returncode, cmd, out, err)`), or the
returned `(out, err, returncode)` triple. -/
inductive ExecResult where
  | timeoutError (nm : String) (timeout : Nat) (cmd : String) : ExecResult
  | calledProcessError (returncode : Int) (cmd : String) (out err : String) : ExecResult
  | ok (out err : String) (returncode : Int) : ExecResult
deriving DecidableEq, Repr

/-- The observable effect of one `PGAutoCtl.execute` call: the raised or
returned result, and the recorded `self.last_returncode`. -/
structure ExecRecord where
  result : ExecResult
  last_returncode : Option Int
deriving DecidableEq, Repr

/-- Embedding of `PGAutoCtl.execute(name, *args, timeout)` after the command line
`cmd` has been built: on `TimeoutExpired` raise a descriptive
`Exception`; otherwise record `self.last_returncode = proc.returncode`,
raise `CalledProcessError` when `proc.returncode > 0`, and return
`(out, err, proc.returncode)` otherwise. -/
def execute (nm cmd : String) (timeout : Nat) (outcome : RunOutcome) : ExecRecord :=
  match outcome with
  | .timedOut => ⟨.timeoutError nm timeout cmd, none⟩
  | .exited out err returncode =>
      if returncode > 0 then
        ⟨.calledProcessError returncode cmd out err, some returncode⟩
      else
        ⟨.ok out err returncode, some returncode⟩

/-- Claim C3 (amended): `execute` raises a structured error carrying the
full command line and the captured stdout/stderr for every *positive*
exit code, raises a descriptive error naming the command on timeout, and
otherwise returns `(stdout, stderr, returncode)`; whenever the process
exits, the exit code is recorded in `last_returncode` (also when the
error is raised).  A *negative* returncode — the process terminated by a
signal, which is a non-zero exit as the original claim counts it — is
returned to the caller, not raised. -/
theorem execute_spec (nm cmd : String) (timeout : Nat) (out err : String) (rc : Int) :
    (rc > 0 → execute nm cmd timeout (.exited out err rc) =
        ⟨.calledProcessError rc cmd out err, some rc⟩)
    ∧ (rc ≤ 0 → execute nm cmd timeout (.exited out err rc) =
        ⟨.ok out err rc, some rc⟩)
    ∧ execute nm cmd timeout .timedOut = ⟨.timeoutError nm timeout cmd, none⟩ := by
  refine ⟨fun h => ?_, fun h => ?_, rfl⟩
  · simp [execute, h]
  · simp [execute, not_lt.mpr h]

/-- Witness for `execute_spec` at concrete inputs: exit code 1 raises
`CalledProcessError` carrying the command line and output, exit code 0
returns the triple. -/
theorem execute_spec_witness :
    execute "drop node" "pg_autoctl drop node" 60 (.exited "o" "e" 1) =
      ⟨.calledProcessError 1 "pg_autoctl drop node" "o" "e", some 1⟩
    ∧ execute "drop node" "pg_autoctl drop node" 60 (.exited "o" "e" 0) =
      ⟨.ok "o" "e" 0, some 0⟩ :=
  ⟨(execute_spec "drop node" "pg_autoctl drop node" 60 "o" "e" 1).1 (by decide),
   (execute_spec "drop node" "pg_autoctl drop node" 60 "o" "e" 0).2.1 (by decide)⟩

/-- Claim C3 (counterexample): a process terminated by SIGTERM has
returncode `-15` — non-zero — yet `execute` returns it as a success
triple instead of raising, because the source tests `proc.returncode > 0`
and not `proc.returncode != 0`.  This refutes "execute raises for every
non-zero exit code". -/
theorem execute_negative_returncode_no_raise :
    execute "run" "pg_autoctl run" 60 (.exited "o" "e" (-15)) =
      ⟨.ok "o" "e" (-15), some (-15)⟩ ∧ (-15 : Int) ≠ 0 := by
  constructor <;> decide

/-! ## StatefulNode.wait_until_state (tests/pgautofailover_utils.py:910-954)

The loop polls `get_state()` once per iteration while the deadline has
not passed, returning `True` as soon as the reported state equals the
target, and raising an `Exception` after the deadline.  Each iteration
sleeps a positive interval, so the number of polls before the deadline is
finite; the finite list `obs` of reported states observed before the
deadline is the input of the embedding.  `Except.error` models the raised
exception (the code prints diagnostics via `print_debug_logs()` and then
raises a single `Exception(error_msg)`). -/

/-- Embedding of `StatefulNode.wait_until_state` over the finite list of states observed before the deadline. -/
def wait_until_state (nodeName target : String) : List String → Except String Bool
  | [] => .error (nodeName ++ " failed to reach " ++ target)
  | s :: rest =>
      if s = target then .ok true else wait_until_state nodeName target rest

/-- Claim C4: `wait_until_state` returns `True` exactly when some observed
state equals the target — and then at the first such observation; it
never returns `False`; and if the deadline elapses with no observed state
equal to the target it raises a single exception.  (The loop is
structurally recursive over the finite observation list, so it always
terminates with either `True` or a raised error.) -/
theorem wait_until_state_spec (nodeName target : String) (obs : List String) :
    (wait_until_state nodeName target obs = Except.ok true ↔ target ∈ obs)
    ∧ wait_until_state nodeName target obs ≠ Except.ok false
    ∧ (target ∉ obs →
        wait_until_state nodeName target obs =
          Except.error (nodeName ++ " failed to reach " ++ target))
    ∧ (∀ l₁ l₂, target ∉ l₁ →
        wait_until_state nodeName target (l₁ ++ target :: l₂) = Except.ok true) := by
  have main : ∀ l : List String,
      (wait_until_state nodeName target l = Except.ok true ↔ target ∈ l)
      ∧ wait_until_state nodeName target l ≠ Except.ok false
      ∧ (target ∉ l →
          wait_until_state nodeName target l =
            Except.error (nodeName ++ " failed to reach " ++ target)) := by
    intro l
    induction l with
    | nil => refine ⟨?_, ?_, fun _ => rfl⟩ <;> simp [wait_until_state]
    | cons a rest ih =>
        by_cases h : a = target
        · subst h
          refine ⟨?_, ?_, ?_⟩ <;> simp [wait_until_state]
        · have hmem : (target ∈ a :: rest) ↔ target ∈ rest := by
            constructor
            · intro hc
              rcases List.mem_cons.mp hc with hc | hc
              · exact absurd hc.symm h
              · exact hc
            · exact List.mem_cons_of_mem a
          refine ⟨?_, ?_, ?_⟩
          · rw [show wait_until_state nodeName target (a :: rest) =
                wait_until_state nodeName target rest from by
                  simp [wait_until_state, h]]
            exact ih.1.trans hmem.symm
          · rw [show wait_until_state nodeName target (a :: rest) =
                wait_until_state nodeName target rest from by
                  simp [wait_until_state, h]]
            exact ih.2.1
          · intro hnot
            rw [show wait_until_state nodeName target (a :: rest) =
                wait_until_state nodeName target rest from by
                  simp [wait_until_state, h]]
            exact ih.2.2 (fun hc => hnot (hmem.mpr hc))
  refine ⟨(main obs).1, (main obs).2.1, (main obs).2.2, ?_⟩
  intro l₁ l₂ _
  exact (main (l₁ ++ target :: l₂)).1.mpr (List.mem_append_right _ (List.mem_cons_self _ _))

/-- Witness for `wait_until_state_spec`: a trace reaching "primary"
returns `True` at the first match; a trace never reaching it raises. -/
theorem wait_until_state_spec_witness :
    wait_until_state "node1" "primary"
        ["single", "wait_primary", "primary", "demoted"] = Except.ok true
    ∧ wait_until_state "node1" "primary" ["single", "catchingup"] =
        Except.error ("node1" ++ " failed to reach " ++ "primary") :=
  ⟨(wait_until_state_spec "node1" "primary"
      ["single", "wait_primary", "primary", "demoted"]).1.mpr (by decide),
   (wait_until_state_spec "node1" "primary" ["single", "catchingup"]).2.2.1 (by decide)⟩

/-! ## PGAutoCtl.communicate / consume_output / stop
(tests/pgautofailover_utils.py:1996-2048)

The supervisor state carries `self.run_proc` (the live `NSPopen` handle,
here its pid, or `None` once reaped), and the captured `self.out`,
`self.err` buffers.  The underlying `run_proc.communicate(timeout=...)`
outcome is an input: either `subprocess.TimeoutExpired` or process exit
with output and returncode. -/

/-- The supervisor's mutable fields touched by communicate/stop. -/
structure PGAutoCtlState where
  run_proc : Option Nat
  out : String
  err : String
deriving DecidableEq, Repr

/-- Outcome of the underlying `run_proc.communicate(timeout=...)` call. -/
inductive CommOutcome where
  | timedOut : CommOutcome
  | exited (out err : String) (returncode : Int) : CommOutcome
deriving DecidableEq, Repr

/-- What one `PGAutoCtl.communicate` call returns (Python returns a
2-tuple on the already-reaped path and a 3-tuple otherwise) or raises. -/
inductive CommResult where
  | pair (out err : String) : CommResult
  | triple (out err : String) (returncode : Int) : CommResult
  | timeoutExpired : CommResult
deriving DecidableEq, Repr

/-- Effect of one `PGAutoCtl.communicate` call: updated state, result,
and whether `run_proc.release()` was executed during this call. -/
structure CommEffect where
  state : PGAutoCtlState
  result : CommResult
  released : Bool
deriving DecidableEq, Repr

/-- Embedding of `PGAutoCtl.communicate(timeout)`: if `self.run_proc` is `None`,
return the previously captured `(self.out, self.err)`; otherwise wait on
the process — a `TimeoutExpired` propagates with the state unchanged,
and on exit the output is captured, the handle is released and cleared,
and `(out, err, returncode)` is returned. -/
def communicate (s : PGAutoCtlState) (outcome : CommOutcome) : CommEffect :=
  match s.run_proc with
  | none => ⟨s, .pair s.out s.err, false⟩
  | some _ =>
      match outcome with
      | .timedOut => ⟨s, .timeoutExpired, false⟩
      | .exited o e rc => ⟨⟨none, o, e⟩, .triple o e rc, true⟩

/-- Embedding of `PGAutoCtl.consume_output(secs)`: calls `communicate` and swallows a
`TimeoutExpired`, returning `(self.out, self.err)`. -/
def consume_output (s : PGAutoCtlState) (outcome : CommOutcome) :
    PGAutoCtlState × String × String :=
  let eff := communicate s outcome
  match eff.result with
  | .timeoutExpired => (s, s.out, s.err)
  | _ => (eff.state, eff.state.out, eff.state.err)

/-- Claim C5: the `communicate` call that observes the process exit
releases the handle's resources in that same call and clears
`run_proc`; afterwards every further `communicate` call — whatever the
world does — returns the previously captured stdout/stderr without
raising and without touching the state (idempotent after exit). -/
theorem communicate_idempotent_after_exit (s : PGAutoCtlState) (p : Nat)
    (o e : String) (rc : Int) (hp : s.run_proc = some p) :
    (communicate s (.exited o e rc) =
        ⟨⟨none, o, e⟩, .triple o e rc, true⟩)
    ∧ (∀ outcome', communicate (communicate s (.exited o e rc)).state outcome' =
        ⟨⟨none, o, e⟩, .pair o e, false⟩) := by
  constructor
  · simp [communicate, hp]
  · intro outcome'
    simp [communicate, hp]

/-- Witness for `communicate_idempotent_after_exit` at a concrete state:
pid 42 exits with output `("done", "log", 0)`; the observing call
releases and the next call returns the captured pair. -/
theorem communicate_idempotent_after_exit_witness :
    communicate ⟨some 42, "", ""⟩ (.exited "done" "log" 0) =
      ⟨⟨none, "done", "log"⟩, .triple "done" "log" 0, true⟩
    ∧ communicate ⟨none, "done", "log"⟩ .timedOut =
      ⟨⟨none, "done", "log"⟩, .pair "done" "log", false⟩ :=
  ⟨(communicate_idempotent_after_exit ⟨some 42, "", ""⟩ 42 "done" "log" 0 rfl).1,
   (communicate_idempotent_after_exit ⟨some 42, "", ""⟩ 42 "done" "log" 0 rfl).2
     CommOutcome.timedOut⟩

/-! ## PGAutoCtl.stop (tests/pgautofailover_utils.py:1996-2014)

    def stop(self):
        """
        Kills the keeper by sending a SIGTERM to keeper's process group.
        """
        if self.run_proc and self.run_proc.pid:
            try:
                os.kill(self.run_proc.pid, signal.SIGTERM)
                return self.pgnode.cluster.communicate(self, COMMAND_TIMEOUT)
            except ProcessLookupError as e:
                self.run_proc = None
                print(...)
                return None, None, -1
        else:
            return None, None, 0

`os.kill(pid, sig)` with a positive pid delivers the signal to the single
process `pid`; delivering to the process group would be `os.killpg` (or
`os.kill` with a negated process-group id).  Whether the target process
still exists is an input (`processExists`); when it does not,
`os.kill` raises `ProcessLookupError`, which `stop` catches. -/

/-- A signal delivery performed via the `os` module. -/
inductive KillTarget where
  | process (pid : Nat) : KillTarget
  | group (pgid : Nat) : KillTarget
deriving DecidableEq, Repr

/-- Effect of one `PGAutoCtl.stop` call: the signal deliveries issued,
the returned `(out, err, returncode)` triple (fields `None` on the
short-circuit paths), and the updated supervisor state.  All paths
return; no exception propagates. -/
structure StopEffect where
  kills : List KillTarget
  ret : Option String × Option String × Int
  state : PGAutoCtlState
deriving DecidableEq, Repr

/-- Embedding of `PGAutoCtl.stop()`: see the quoted source above.  On the live path,
`cluster.communicate(self, COMMAND_TIMEOUT)` reaps the process and yields
the captured `(out, err, returncode)` (the exit outcome `o`, `e`, `rc`
is the world input). -/
def stop (s : PGAutoCtlState) (processExists : Bool)
    (o e : String) (rc : Int) : StopEffect :=
  match s.run_proc with
  | some pid =>
      if pid ≠ 0 then
        if processExists then
          { kills := [.process pid]
            ret := (some o, some e, rc)
            state := ⟨none, o, e⟩ }
        else
          -- os.kill raised ProcessLookupError: caught, run_proc = None
          { kills := [], ret := (none, none, -1), state := ⟨none, s.out, s.err⟩ }
      else
        { kills := [], ret := (none, none, 0), state := s }
  | none => { kills := [], ret := (none, none, 0), state := s }

/-- Claim C8: evaluation of `stop` at the failing input.  The claim (and
the function's own docstring, "sending a SIGTERM to keeper's process
group") says the signal reaches the keeper's *process group*; the code
calls `os.kill(self.run_proc.pid, SIGTERM)`, which signals only the
single process — no group delivery ever occurs.  The claim's second part
holds: when the process no longer exists (`ProcessLookupError`) or no
run handle is recorded, `stop` returns without raising. -/
theorem stop_signals_process_not_group :
    (stop ⟨some 1234, "", ""⟩ true "o" "e" 0).kills = [KillTarget.process 1234]
    ∧ (∀ g, KillTarget.group g ∉ (stop ⟨some 1234, "", ""⟩ true "o" "e" 0).kills)
    ∧ (stop ⟨some 1234, "", ""⟩ false "o" "e" 0).ret = (none, none, -1)
    ∧ (stop ⟨some 1234, "", ""⟩ false "o" "e" 0).kills = []
    ∧ (stop ⟨none, "", ""⟩ true "o" "e" 0).ret = (none, none, 0) := by
  refine ⟨rfl, ?_, rfl, rfl, rfl⟩
  intro g hg
  simp [stop] at hg

/-! ## tests/network.py — kernel-object state

The kernel objects touched by `VirtualNode.destroy`,
`_remove_interface_if_exists` and `VirtualLAN.destroy` are network
interfaces (veth peers and the bridge — "a bridge is also an interface")
and network namespaces, each identified by name.  `netns.remove` raises
when the namespace does not exist; `ndb.interfaces[name].remove().commit()`
can raise `NetlinkError` (whether it does is the input `netlinkOk`). -/

/-- Kernel state: the named interfaces and network namespaces that
exist on the host. -/
structure Kernel where
  interfaces : List String
  namespaces : List String
deriving DecidableEq, Repr

/-- Embedding of `netns.remove(name)`: removes the namespace, raising when absent. -/
def netnsRemove (nm : String) (k : Kernel) : Except String Kernel :=
  if nm ∈ k.namespaces then
    .ok { k with namespaces := k.namespaces.erase nm }
  else .error "No such file or directory"

/-- Embedding of `ndb.interfaces[name].remove().commit()`: removes the interface; may
raise `NetlinkError` (input `netlinkOk = false`). -/
def ndbRemoveCommit (netlinkOk : Bool) (nm : String) (k : Kernel) : Except String Kernel :=
  if netlinkOk then .ok { k with interfaces := k.interfaces.erase nm }
  else .error "NetlinkError"

/-- Embedding of `_remove_interface_if_exists(name)` (tests/network.py:296-307):
`if name in ndb.interfaces:` guard, then the remove/commit wrapped in
`try: ... except netlink.exceptions.NetlinkError: pass`.  Total: every
exception the body can raise is caught. -/
def remove_interface_if_exists (netlinkOk : Bool) (nm : String) (k : Kernel) : Kernel :=
  if nm ∈ k.interfaces then
    match ndbRemoveCommit netlinkOk nm k with
    | .ok k' => k'
    | .error _ => k
  else k

/-- Embedding of `VirtualNode.destroy` (tests/network.py:132-141): removes the veth
peer via `_remove_interface_if_exists`, then `netns.remove(namespace)`
wrapped in a bare `try/except: pass`.  Total: no exception escapes. -/
def vnode_destroy (netlinkOk : Bool) (vethPeer nsName : String) (k : Kernel) : Kernel :=
  let k₁ := remove_interface_if_exists netlinkOk vethPeer k
  match netnsRemove nsName k₁ with
  | .ok k₂ => k₂
  | .error _ => k₁

/-- The `for node in self.nodes: node.destroy()` loop of
`VirtualLAN.destroy`, over the `(vethPeer, namespace)` pairs of the
owned nodes. -/
def vlanNodesDestroy (netlinkOk : Bool) (nodes : List (String × String)) (k : Kernel) : Kernel :=
  nodes.foldl (fun acc nd => vnode_destroy netlinkOk nd.1 nd.2 acc) k

/-- Embedding of `VirtualLAN.destroy` (tests/network.py:82-91), kernel-object part:
destroys every owned node, then removes the bridge via
`_remove_interface_if_exists`.  (The final sysctl restore touches no
kernel network object.) -/
def vlan_destroy (netlinkOk : Bool) (nodes : List (String × String))
    (bridgeName : String) (k : Kernel) : Kernel :=
  remove_interface_if_exists netlinkOk bridgeName (vlanNodesDestroy netlinkOk nodes k)

theorem remove_interface_if_exists_absent (netlinkOk : Bool) (nm : String) (k : Kernel)
    (h : nm ∉ k.interfaces) : remove_interface_if_exists netlinkOk nm k = k := by
  simp [remove_interface_if_exists, h]

theorem remove_interface_if_exists_namespaces (netlinkOk : Bool) (nm : String) (k : Kernel) :
    (remove_interface_if_exists netlinkOk nm k).namespaces = k.namespaces := by
  unfold remove_interface_if_exists ndbRemoveCommit
  by_cases h : nm ∈ k.interfaces <;> by_cases hn : netlinkOk <;> simp [h, hn]

theorem remove_interface_if_exists_sublist (netlinkOk : Bool) (nm : String) (k : Kernel) :
    (remove_interface_if_exists netlinkOk nm k).interfaces.Sublist k.interfaces := by
  unfold remove_interface_if_exists ndbRemoveCommit
  by_cases h : nm ∈ k.interfaces <;> by_cases hn : netlinkOk <;>
    simp [h, hn, List.erase_sublist]

theorem vnode_destroy_absent (netlinkOk : Bool) (vethPeer nsName : String) (k : Kernel)
    (hi : vethPeer ∉ k.interfaces) (hn : nsName ∉ k.namespaces) :
    vnode_destroy netlinkOk vethPeer nsName k = k := by
  unfold vnode_destroy
  rw [remove_interface_if_exists_absent _ _ _ hi]
  simp [netnsRemove, hn]

theorem remove_interface_if_exists_removes (nm : String) (k : Kernel)
    (h : k.interfaces.Nodup) : nm ∉ (remove_interface_if_exists true nm k).interfaces := by
  unfold remove_interface_if_exists ndbRemoveCommit
  by_cases hm : nm ∈ k.interfaces
  · simp only [hm, if_true]
    exact h.not_mem_erase
  · rw [if_neg hm]
    exact hm

theorem vnode_destroy_interfaces (netlinkOk : Bool) (vethPeer nsName : String) (k : Kernel) :
    (vnode_destroy netlinkOk vethPeer nsName k).interfaces =
      (remove_interface_if_exists netlinkOk vethPeer k).interfaces := by
  unfold vnode_destroy netnsRemove
  by_cases h : nsName ∈ (remove_interface_if_exists netlinkOk vethPeer k).namespaces <;>
    simp [h]

theorem vnode_destroy_namespaces (netlinkOk : Bool) (vethPeer nsName : String) (k : Kernel) :
    (vnode_destroy netlinkOk vethPeer nsName k).namespaces =
      if nsName ∈ k.namespaces then k.namespaces.erase nsName else k.namespaces := by
  unfold vnode_destroy netnsRemove
  by_cases h : nsName ∈ (remove_interface_if_exists netlinkOk vethPeer k).namespaces
  · have h' : nsName ∈ k.namespaces := by
      rwa [remove_interface_if_exists_namespaces] at h
    simp [h, h', remove_interface_if_exists_namespaces]
  · have h' : nsName ∉ k.namespaces := by
      rwa [remove_interface_if_exists_namespaces] at h
    simp [h, h', remove_interface_if_exists_namespaces]

theorem vnode_destroy_sublist (netlinkOk : Bool) (vethPeer nsName : String) (k : Kernel) :
    (vnode_destroy netlinkOk vethPeer nsName k).interfaces.Sublist k.interfaces
    ∧ (vnode_destroy netlinkOk vethPeer nsName k).namespaces.Sublist k.namespaces := by
  constructor
  · rw [vnode_destroy_interfaces]
    exact remove_interface_if_exists_sublist netlinkOk vethPeer k
  · rw [vnode_destroy_namespaces]
    by_cases h : nsName ∈ k.namespaces
    · simp only [h, if_true]
      exact List.erase_sublist _ _
    · simp only [h, if_false]
      exact List.Sublist.refl _

theorem vnode_destroy_removes (vethPeer nsName : String) (k : Kernel)
    (hi : k.interfaces.Nodup) (hn : k.namespaces.Nodup) :
    vethPeer ∉ (vnode_destroy true vethPeer nsName k).interfaces
    ∧ nsName ∉ (vnode_destroy true vethPeer nsName k).namespaces := by
  constructor
  · rw [vnode_destroy_interfaces]
    exact remove_interface_if_exists_removes vethPeer k hi
  · rw [vnode_destroy_namespaces]
    by_cases h : nsName ∈ k.namespaces
    · simp only [h, if_true]
      exact hn.not_mem_erase
    · simp [h]

theorem vlanNodesDestroy_sublist (netlinkOk : Bool) (nodes : List (String × String)) (k : Kernel) :
    (vlanNodesDestroy netlinkOk nodes k).interfaces.Sublist k.interfaces
    ∧ (vlanNodesDestroy netlinkOk nodes k).namespaces.Sublist k.namespaces := by
  induction nodes generalizing k with
  | nil => exact ⟨List.Sublist.refl _, List.Sublist.refl _⟩
  | cons nd rest ih =>
      have h₁ := vnode_destroy_sublist netlinkOk nd.1 nd.2 k
      have h₂ := ih (vnode_destroy netlinkOk nd.1 nd.2 k)
      exact ⟨h₂.1.trans h₁.1, h₂.2.trans h₁.2⟩

theorem vlanNodesDestroy_removes (nodes : List (String × String)) (k : Kernel)
    (hi : k.interfaces.Nodup) (hn : k.namespaces.Nodup) :
    ∀ nd ∈ nodes, nd.1 ∉ (vlanNodesDestroy true nodes k).interfaces
      ∧ nd.2 ∉ (vlanNodesDestroy true nodes k).namespaces := by
  induction nodes generalizing k with
  | nil => intro nd h; cases h
  | cons first rest ih =>
      intro nd hmem
      have hstep := vnode_destroy_removes first.1 first.2 k hi hn
      have hsub := vlanNodesDestroy_sublist true rest (vnode_destroy true first.1 first.2 k)
      have hsubstep := vnode_destroy_sublist true first.1 first.2 k
      rcases List.mem_cons.mp hmem with hmem | hmem
      · subst hmem
        refine ⟨fun hc => hstep.1 (hsub.1.subset hc), fun hc => hstep.2 (hsub.2.subset hc)⟩
      · exact ih (vnode_destroy true first.1 first.2 k)
          (hsubstep.1.nodup hi) (hsubstep.2.nodup hn) nd hmem

theorem vlanNodesDestroy_absent (netlinkOk : Bool) (nodes : List (String × String)) (k : Kernel)
    (h : ∀ nd ∈ nodes, nd.1 ∉ k.interfaces ∧ nd.2 ∉ k.namespaces) :
    vlanNodesDestroy netlinkOk nodes k = k := by
  induction nodes with
  | nil => rfl
  | cons nd rest ih =>
      have hnd := h nd (List.mem_cons_self _ _)
      have hstep : vnode_destroy netlinkOk nd.1 nd.2 k = k :=
        vnode_destroy_absent netlinkOk nd.1 nd.2 k hnd.1 hnd.2
      show vlanNodesDestroy netlinkOk rest (vnode_destroy netlinkOk nd.1 nd.2 k) = k
      rw [hstep]
      exact ih (fun x hx => h x (List.mem_cons_of_mem _ hx))

/-- Claim C9: teardown is idempotent.  When the kernel objects are already
absent (removed out-of-band), `VirtualNode.destroy` and
`VirtualLAN.destroy` are no-ops — every exception their bodies can raise
(`netns.remove` on an absent namespace, `NetlinkError` from the
interface removal) is caught, so the embedded functions are total and
nothing is raised.  A second destroy after a successful first one is
also a no-op.  (Kernel interface/namespace names are unique, giving the
`Nodup` hypotheses.) -/
theorem destroy_idempotent (netlinkOk netlinkOk' : Bool)
    (vethPeer nsName bridgeName : String) (nodes : List (String × String)) (k : Kernel)
    (hi : k.interfaces.Nodup) (hn : k.namespaces.Nodup) :
    (vethPeer ∉ k.interfaces → nsName ∉ k.namespaces →
        vnode_destroy netlinkOk vethPeer nsName k = k)
    ∧ vnode_destroy netlinkOk' vethPeer nsName (vnode_destroy true vethPeer nsName k) =
        vnode_destroy true vethPeer nsName k
    ∧ ((∀ nd ∈ nodes, nd.1 ∉ k.interfaces ∧ nd.2 ∉ k.namespaces) →
        bridgeName ∉ k.interfaces →
        vlan_destroy netlinkOk nodes bridgeName k = k)
    ∧ vlan_destroy netlinkOk' nodes bridgeName (vlan_destroy true nodes bridgeName k) =
        vlan_destroy true nodes bridgeName k := by
  refine ⟨vnode_destroy_absent netlinkOk vethPeer nsName k, ?_, ?_, ?_⟩
  · have hrem := vnode_destroy_removes vethPeer nsName k hi hn
    exact vnode_destroy_absent netlinkOk' vethPeer nsName _ hrem.1 hrem.2
  · intro habs hb
    unfold vlan_destroy
    rw [vlanNodesDestroy_absent netlinkOk nodes k habs]
    exact remove_interface_if_exists_absent netlinkOk bridgeName k hb
  · have hnodesf := vlanNodesDestroy_removes nodes k hi hn
    have hsubf := vlanNodesDestroy_sublist true nodes k
    have hfNodupI : (vlanNodesDestroy true nodes k).interfaces.Nodup := hsubf.1.nodup hi
    have hb : bridgeName ∉
        (remove_interface_if_exists true bridgeName (vlanNodesDestroy true nodes k)).interfaces :=
      remove_interface_if_exists_removes bridgeName _ hfNodupI
    have hsubr := remove_interface_if_exists_sublist true bridgeName (vlanNodesDestroy true nodes k)
    have hnsr := remove_interface_if_exists_namespaces true bridgeName (vlanNodesDestroy true nodes k)
    have habsent : ∀ nd ∈ nodes,
        nd.1 ∉ (remove_interface_if_exists true bridgeName
                  (vlanNodesDestroy true nodes k)).interfaces
        ∧ nd.2 ∉ (remove_interface_if_exists true bridgeName
                  (vlanNodesDestroy true nodes k)).namespaces := by
      intro nd hm
      exact ⟨fun hc => (hnodesf nd hm).1 (hsubr.subset hc),
             fun hc => (hnodesf nd hm).2 (hnsr ▸ hc)⟩
    show vlan_destroy netlinkOk' nodes bridgeName
        (remove_interface_if_exists true bridgeName (vlanNodesDestroy true nodes k)) =
      remove_interface_if_exists true bridgeName (vlanNodesDestroy true nodes k)
    unfold vlan_destroy
    rw [vlanNodesDestroy_absent netlinkOk' nodes _ habsent]
    exact remove_interface_if_exists_absent netlinkOk' bridgeName _ hb

/-- Witness for `destroy_idempotent` on a concrete kernel state with one
node, its veth peer and the bridge: the second node destroy and the
second LAN destroy change nothing. -/
theorem destroy_idempotent_witness :
    vnode_destroy true "pgauto-0p" "pgauto-0"
        (vnode_destroy true "pgauto-0p" "pgauto-0"
          ⟨["pgauto-0p", "pgauto-br"], ["pgauto-0"]⟩) =
      vnode_destroy true "pgauto-0p" "pgauto-0"
        ⟨["pgauto-0p", "pgauto-br"], ["pgauto-0"]⟩
    ∧ vlan_destroy true [("pgauto-0p", "pgauto-0")] "pgauto-br"
        (vlan_destroy true [("pgauto-0p", "pgauto-0")] "pgauto-br"
          ⟨["pgauto-0p", "pgauto-br"], ["pgauto-0"]⟩) =
      vlan_destroy true [("pgauto-0p", "pgauto-0")] "pgauto-br"
        ⟨["pgauto-0p", "pgauto-br"], ["pgauto-0"]⟩ :=
  have h := destroy_idempotent true true "pgauto-0p" "pgauto-0" "pgauto-br"
    [("pgauto-0p", "pgauto-0")] ⟨["pgauto-0p", "pgauto-br"], ["pgauto-0"]⟩
    (by decide) (by decide)
  ⟨h.2.1, h.2.2.2⟩

/-! ## VirtualLAN address allocation (tests/network.py:45-80)

`VirtualLAN.__init__` builds `self.availableHosts = ipnet.hosts()`, a
generator yielding the usable host addresses of the subnet in increasing
order (for an IPv4 network of integer base `base` with `hostCount`
usable hosts: `base+1, base+2, ..., base+hostCount`), takes the first
for the bridge, and `create_node` takes the next for each node
(`address = next(self.availableHosts)`).  `next` on an exhausted
generator raises `StopIteration`, embedded as `none`.  The generator is
the forward-only allocator cursor: nothing ever rewinds or refills it. -/

/-- The `k`-th address yielded by `ipaddress.ip_network(...).hosts()`
over a network whose (integer) network address is `base`. -/
def hostAddr (base k : Nat) : Nat := base + 1 + k

/-- The allocator-relevant state of a `VirtualLAN`. -/
structure VLanState where
  pfx : String
  base : Nat
  hostCount : Nat
  cursorOffset : Nat
  bridgeAddress : Nat
  nodes : List (String × Nat)
deriving DecidableEq, Repr

/-- Embedding of `VirtualLAN.__init__(namePrefix, subnet)`: the bridge takes the
first host address (`next` fails — `none` — on a subnet with no usable
host). -/
def vlan_init (pfx : String) (base hostCount : Nat) : Option VLanState :=
  if hostCount = 0 then none
  else some { pfx := pfx, base := base, hostCount := hostCount,
              cursorOffset := 1, bridgeAddress := hostAddr base 0, nodes := [] }

/-- Embedding of `VirtualLAN.create_node()`: namespace name
`"%s-%s" % (self.namePrefix, len(self.nodes))`, address
`next(self.availableHosts)`, node appended to `self.nodes`. -/
def create_node (v : VLanState) : Option (VLanState × String × Nat) :=
  if v.cursorOffset < v.hostCount then
    let nsName := v.pfx ++ "-" ++ toString v.nodes.length
    let addr := hostAddr v.base v.cursorOffset
    some ({ v with cursorOffset := v.cursorOffset + 1,
                   nodes := v.nodes ++ [(nsName, addr)] }, nsName, addr)
  else none

/-- Operations a test run performs against one `VirtualLAN` instance:
`create_node` calls and `VirtualNode.destroy` calls.
`VirtualNode.destroy` (tests/network.py:132-141) removes kernel objects
only — its body never references the `VirtualLAN`, so the allocator
state is untouched; a failing `create_node` (`StopIteration`) leaves the
state as it was. -/
inductive LanOp where
  | create : LanOp
  | destroyNode (i : Nat) : LanOp
deriving DecidableEq, Repr

/-- Effect of one operation on the `VirtualLAN` allocator state. -/
def lanStep (v : VLanState) : LanOp → VLanState
  | .create =>
      match create_node v with
      | some (v', _, _) => v'
      | none => v
  | .destroyNode _ => v

/-- The bridge address followed by the node addresses, in creation
order. -/
def addrList (v : VLanState) : List Nat :=
  v.bridgeAddress :: v.nodes.map Prod.snd

/-- Allocator invariant tying the cursor to the addresses handed out. -/
structure VLanInv (base hostCount : Nat) (v : VLanState) : Prop where
  base_eq : v.base = base
  count_eq : v.hostCount = hostCount
  cursor_eq : v.cursorOffset = v.nodes.length + 1
  bridge_eq : v.bridgeAddress = hostAddr base 0
  nodes_eq : v.nodes.map Prod.snd =
    (List.range v.nodes.length).map (fun i => hostAddr base (i + 1))
  cursor_le : v.cursorOffset ≤ hostCount

theorem vlan_init_inv (pfx : String) (base hostCount : Nat) (v : VLanState)
    (h : vlan_init pfx base hostCount = some v) : VLanInv base hostCount v := by
  unfold vlan_init at h
  by_cases h0 : hostCount = 0
  · simp [h0] at h
  · simp only [h0, if_false, Option.some.injEq] at h
    subst h
    exact ⟨rfl, rfl, rfl, rfl, rfl, Nat.one_le_iff_ne_zero.mpr h0⟩

theorem lanStep_inv (base hostCount : Nat) (v : VLanState) (op : LanOp)
    (h : VLanInv base hostCount v) : VLanInv base hostCount (lanStep v op) := by
  cases op with
  | destroyNode i => exact h
  | create =>
      unfold lanStep create_node
      by_cases hc : v.cursorOffset < v.hostCount
      · simp only [hc, if_true]
        refine ⟨h.base_eq, h.count_eq, ?_, h.bridge_eq, ?_, ?_⟩
        · simp [h.cursor_eq]
        · simp only [List.map_append, List.length_append, List.map_cons, List.map_nil,
            List.length_cons, List.length_nil]
          rw [h.nodes_eq]
          have : v.nodes.length + (0 + 1) = v.nodes.length + 1 := by omega
          rw [this, List.range_succ, List.map_append]
          simp [h.cursor_eq, h.base_eq]
        · have hc' : v.cursorOffset < hostCount := h.count_eq ▸ hc
          show v.cursorOffset + 1 ≤ hostCount
          omega
      · simp only [hc, if_false]
        exact h

theorem lanRun_inv (base hostCount : Nat) (v : VLanState) (ops : List LanOp)
    (h : VLanInv base hostCount v) : VLanInv base hostCount (ops.foldl lanStep v) := by
  induction ops generalizing v with
  | nil => exact h
  | cons op rest ih => exact ih _ (lanStep_inv base hostCount v op h)

/-- Under the invariant, all handed-out addresses (bridge first) are the
first `length + 1` host addresses of the subnet. -/
theorem addrList_eq (base hostCount : Nat) (v : VLanState) (h : VLanInv base hostCount v) :
    addrList v = (List.range (v.nodes.length + 1)).map (hostAddr base) := by
  unfold addrList
  rw [h.bridge_eq, h.nodes_eq, List.range_succ_eq_map]
  simp only [List.map_cons, List.map_map]
  rfl

/-- Claim C6: over every operation sequence on one `VirtualLAN` instance,
the bridge address and all node addresses are pairwise distinct host
addresses of the configured subnet (strictly between the network address
`base` and `base + hostCount + 1`), and destroying a node never changes
the allocator state — the generator cursor only moves forward, so no
address is ever freed for reuse by a later `create_node`. -/
theorem vlan_address_uniqueness (pfx : String) (base hostCount : Nat)
    (ops : List LanOp) (v₀ : VLanState)
    (hinit : vlan_init pfx base hostCount = some v₀) :
    (addrList (ops.foldl lanStep v₀)).Nodup
    ∧ (∀ a ∈ addrList (ops.foldl lanStep v₀), base + 1 ≤ a ∧ a ≤ base + hostCount)
    ∧ (∀ i, lanStep (ops.foldl lanStep v₀) (.destroyNode i) = ops.foldl lanStep v₀) := by
  have hinv := lanRun_inv base hostCount v₀ ops (vlan_init_inv pfx base hostCount v₀ hinit)
  have heq := addrList_eq base hostCount _ hinv
  have hinj : Function.Injective (hostAddr base) := by
    intro i j hij
    unfold hostAddr at hij
    omega
  refine ⟨?_, ?_, fun i => rfl⟩
  · rw [heq]
    exact List.Nodup.map hinj (List.nodup_range _)
  · intro a ha
    rw [heq] at ha
    obtain ⟨i, hi, rfl⟩ := List.mem_map.mp ha
    have hi' := List.mem_range.mp hi
    have hcur := hinv.cursor_eq
    have hle := hinv.cursor_le
    unfold hostAddr
    omega

/-- Witness for `vlan_address_uniqueness`: subnet 172.27.1.0/24
(integer base 2887450880, 254 usable hosts), three `create_node` calls
with a node destroy in between — the four addresses (bridge first) are
172.27.1.1–172.27.1.4, pairwise distinct. -/
theorem vlan_address_uniqueness_witness :
    addrList ([LanOp.create, LanOp.create, LanOp.destroyNode 0, LanOp.create].foldl lanStep
        { pfx := "pgauto", base := 2887450880, hostCount := 254, cursorOffset := 1,
          bridgeAddress := hostAddr 2887450880 0, nodes := [] }) =
      [2887450881, 2887450882, 2887450883, 2887450884]
    ∧ (addrList ([LanOp.create, LanOp.create, LanOp.destroyNode 0, LanOp.create].foldl lanStep
        { pfx := "pgauto", base := 2887450880, hostCount := 254, cursorOffset := 1,
          bridgeAddress := hostAddr 2887450880 0, nodes := [] })).Nodup :=
  ⟨by decide,
   (vlan_address_uniqueness "pgauto" 2887450880 254
      [LanOp.create, LanOp.create, LanOp.destroyNode 0, LanOp.create]
      { pfx := "pgauto", base := 2887450880, hostCount := 254, cursorOffset := 1,
        bridgeAddress := hostAddr 2887450880 0, nodes := [] } rfl).1⟩

/-! ## Cluster teardown (tests/pgautofailover_utils.py)

`Cluster.destroy` (189-197):

    for datanode in list(reversed(self.datanodes)):
        datanode.destroy(force=force, ignore_failure=True, timeout=3)
    if self.monitor:
        self.monitor.destroy()
    self.vlan.destroy()

`DataNode.destroy` (1258-1301): stops pg_autoctl, runs
`pg_autoctl drop node --destroy` inside `try/except` — re-raised unless
`ignore_failure` — then removes the config and state files (absence
tolerated) and removes itself from `cluster.datanodes`
(`try: ... remove(self) except ValueError: pass`).

`MonitorNode.destroy` (1733-1765): stops pg_autoctl, runs
`pg_autoctl drop monitor --destroy` inside
`try: ... except Exception as e: print(str(e)); raise` — the exception
is *re-raised* —, removes the files, and sets `cluster.monitor = None`.

Whether each external `drop` command fails is an input.  Nodes are
identified by the id used at creation. -/

/-- The `datanodes` list and `monitor` reference of a `Cluster`. -/
structure ClusterState where
  datanodes : List Nat
  monitor : Option Nat
deriving DecidableEq, Repr

/-- A teardown step of `Cluster.destroy`, recorded in execution order. -/
inductive TStep where
  | dropDataNode (id : Nat) : TStep
  | dropMonitor : TStep
  | destroyVlan : TStep
deriving DecidableEq, Repr

/-- Embedding of `DataNode.destroy(force, ignore_failure, timeout)`: the
`drop node --destroy` failure propagates only when `ignore_failure` is
false; on return, the node has removed itself from `cluster.datanodes`
(first occurrence, absence tolerated — `List.erase` is exactly Python's
`try: list.remove(x) except ValueError: pass`). -/
def dataNode_destroy (dropFails ignoreFailure : Bool) (id : Nat) (c : ClusterState) :
    Except String ClusterState :=
  if dropFails && !ignoreFailure then .error "pg_autoctl drop node --destroy failed"
  else .ok { c with datanodes := c.datanodes.erase id }

/-- Embedding of `MonitorNode.destroy()`: a `drop monitor --destroy` failure is
printed and *re-raised*; on success `cluster.monitor = None`. -/
def monitor_destroy (dropFails : Bool) (c : ClusterState) : Except String ClusterState :=
  if dropFails then .error "pg_autoctl destroy monitor failed"
  else .ok { c with monitor := none }

/-- The `for datanode in list(reversed(self.datanodes))` loop of
`Cluster.destroy`, iterating over a snapshot (`list(...)`) of `ids` with
`ignore_failure=True` (the error branch is unreachable then, see
`dataNode_destroy_ignore`). -/
def dropDataNodes (dropFails : Nat → Bool) (ids : List Nat) (c : ClusterState) : ClusterState :=
  ids.foldl (fun acc id =>
      match dataNode_destroy (dropFails id) true id acc with
      | .ok c' => c'
      | .error _ => acc) c

/-- Embedding of `Cluster.destroy(force=True)`: data nodes in reverse creation order
(failures ignored), then the monitor if present (whose failure
propagates), then `vlan.destroy()`.  Returns the executed steps in order
and the resulting state or the propagated exception. -/
def cluster_destroy (dropFails : Nat → Bool) (monitorDropFails : Bool) (c : ClusterState) :
    List TStep × Except String ClusterState :=
  let c₁ := dropDataNodes dropFails c.datanodes.reverse c
  let log₁ := c.datanodes.reverse.map TStep.dropDataNode
  match c₁.monitor with
  | some _ =>
      match monitor_destroy monitorDropFails c₁ with
      | .ok c₂ => (log₁ ++ [TStep.dropMonitor, TStep.destroyVlan], .ok c₂)
      | .error e => (log₁ ++ [TStep.dropMonitor], .error e)
  | none => (log₁ ++ [TStep.destroyVlan], .ok c₁)

theorem dataNode_destroy_ignore (dropFails : Bool) (id : Nat) (c : ClusterState) :
    dataNode_destroy dropFails true id c =
      .ok { c with datanodes := c.datanodes.erase id } := by
  unfold dataNode_destroy
  simp

theorem dropDataNodes_monitor (dropFails : Nat → Bool) (ids : List Nat) (c : ClusterState) :
    (dropDataNodes dropFails ids c).monitor = c.monitor := by
  induction ids generalizing c with
  | nil => rfl
  | cons id rest ih =>
      show (dropDataNodes dropFails rest _).monitor = c.monitor
      rw [ih]
      simp [dataNode_destroy_ignore]

theorem dropDataNodes_datanodes (dropFails : Nat → Bool) (ids : List Nat) (c : ClusterState) :
    (dropDataNodes dropFails ids c).datanodes = ids.foldl List.erase c.datanodes := by
  induction ids generalizing c with
  | nil => rfl
  | cons id rest ih =>
      show (dropDataNodes dropFails rest _).datanodes = _
      rw [ih]
      simp [dataNode_destroy_ignore]

theorem mem_cluster_destroy_log (dropFails : Nat → Bool) (mf : Bool)
    (c : ClusterState) (id : Nat) :
    (TStep.dropDataNode id ∈ (cluster_destroy dropFails mf c).1 ↔ id ∈ c.datanodes)
    ∧ (TStep.dropMonitor ∈ (cluster_destroy dropFails mf c).1 ↔ c.monitor.isSome) := by
  have hmon := dropDataNodes_monitor dropFails c.datanodes.reverse c
  simp only [cluster_destroy]
  cases hm : c.monitor with
  | none =>
      rw [hm] at hmon
      simp [hmon, List.mem_map]
  | some m =>
      rw [hm] at hmon
      cases mf <;> simp [hmon, monitor_destroy, List.mem_map]

/-- Claim C1 (amended): `Cluster.destroy` destroys the data nodes in
reverse-of-creation order (each `DataNode.destroy` called with
`ignore_failure=True`, so data-node failures never stop the teardown),
then the monitor when present, then the `VirtualLan` — and, *provided
the monitor's own `drop monitor` command succeeds*, all steps run and
the teardown completes with `cluster.monitor = None`.  (The original
claim's "every individual destroy step is wrapped" fails for the
monitor: `MonitorNode.destroy` re-raises, see
`cluster_destroy_monitor_failure_skips_vlan`.) -/
theorem cluster_destroy_order (dropFails : Nat → Bool) (c : ClusterState) :
    (cluster_destroy dropFails false c).1 =
      c.datanodes.reverse.map TStep.dropDataNode ++
        (if c.monitor.isSome then [TStep.dropMonitor, TStep.destroyVlan]
         else [TStep.destroyVlan])
    ∧ ∃ c', (cluster_destroy dropFails false c).2 = .ok c' ∧ c'.monitor = none := by
  have hmon := dropDataNodes_monitor dropFails c.datanodes.reverse c
  simp only [cluster_destroy]
  cases hm : c.monitor with
  | none =>
      rw [hm] at hmon
      refine ⟨by simp [hmon, hm], ?_⟩
      exact ⟨dropDataNodes dropFails c.datanodes.reverse c, by simp [hmon], hmon⟩
  | some m =>
      rw [hm] at hmon
      refine ⟨by simp [hmon, hm, monitor_destroy], ?_⟩
      exact ⟨{ dropDataNodes dropFails c.datanodes.reverse c with monitor := none },
             by simp [hmon, monitor_destroy], rfl⟩

/-- Claim C1 (counterexample): with two data nodes and a monitor whose
`pg_autoctl drop monitor --destroy` fails, `Cluster.destroy` runs the
data-node teardowns (in reverse order) and the monitor teardown, but the
monitor's exception propagates and the `VirtualLan` teardown step never
runs — refuting "a failure in one node's teardown does not prevent the
remaining teardown steps (including the VirtualLAN teardown)". -/
theorem cluster_destroy_monitor_failure_skips_vlan :
    (cluster_destroy (fun _ => false) true ⟨[1, 2], some 0⟩).1 =
      [TStep.dropDataNode 2, TStep.dropDataNode 1, TStep.dropMonitor]
    ∧ TStep.destroyVlan ∉ (cluster_destroy (fun _ => false) true ⟨[1, 2], some 0⟩).1
    ∧ (cluster_destroy (fun _ => false) true ⟨[1, 2], some 0⟩).2 =
        .error "pg_autoctl destroy monitor failed" := by
  refine ⟨by decide, by decide, rfl⟩

/-- Happy path of `Cluster.destroy` on a concrete cluster: two data
nodes and a monitor, all drop commands succeeding — every step runs, in
order, ending with the VirtualLAN. -/
theorem cluster_destroy_order_example :
    (cluster_destroy (fun _ => false) false ⟨[1, 2], some 0⟩).1 =
      [TStep.dropDataNode 2, TStep.dropDataNode 1, TStep.dropMonitor, TStep.destroyVlan]
    ∧ (cluster_destroy (fun _ => false) false ⟨[1, 2], some 0⟩).2 =
        .ok ⟨[], none⟩ := by
  refine ⟨by decide, rfl⟩

/-- Claim C10: a `DataNode.destroy` that returns normally has removed the
node from `cluster.datanodes` (tolerating prior absence: when the id is
not in the list the state is returned unchanged), and a successful
`MonitorNode.destroy` leaves `cluster.monitor = None`; in both cases a
subsequent `Cluster.destroy` performs no second teardown step for that
node.  (The `count ≤ 1` hypothesis holds for every reachable cluster:
`create_datanode` appends one fresh object per call.) -/
theorem destroy_deregisters_node (dropFails ignoreFailure : Bool) (id : Nat)
    (c : ClusterState) (f : Nat → Bool)
    (hcount : c.datanodes.count id ≤ 1) :
    (∀ c', dataNode_destroy dropFails ignoreFailure id c = .ok c' →
        id ∉ c'.datanodes ∧ TStep.dropDataNode id ∉ (cluster_destroy f false c').1)
    ∧ (id ∉ c.datanodes →
        dataNode_destroy dropFails ignoreFailure id c = .ok c
        ∨ dataNode_destroy dropFails ignoreFailure id c =
            .error "pg_autoctl drop node --destroy failed")
    ∧ (∀ c₂, monitor_destroy false c = .ok c₂ →
        c₂.monitor = none ∧ TStep.dropMonitor ∉ (cluster_destroy f false c₂).1) := by
  refine ⟨?_, ?_, ?_⟩
  · intro c' hok
    have hc' : c' = { c with datanodes := c.datanodes.erase id } := by
      unfold dataNode_destroy at hok
      by_cases h : dropFails && !ignoreFailure
      · simp [h] at hok
      · simp [h] at hok
        exact hok.symm
    subst hc'
    have hnot : id ∉ c.datanodes.erase id := by
      have := List.count_erase_self id c.datanodes
      have hz : (c.datanodes.erase id).count id = 0 := by omega
      exact List.count_eq_zero.mp hz
    exact ⟨hnot, fun hmem =>
      hnot ((mem_cluster_destroy_log f false _ id).1.mp hmem)⟩
  · intro habs
    unfold dataNode_destroy
    by_cases h : dropFails && !ignoreFailure
    · right; simp [h]
    · left
      simp [h, List.erase_of_not_mem habs]
  · intro c₂ hok
    have hc₂ : c₂ = { c with monitor := none } := by
      unfold monitor_destroy at hok
      simp at hok
      exact hok.symm
    subst hc₂
    refine ⟨rfl, fun hmem => ?_⟩
    have hiff := (mem_cluster_destroy_log f false { c with monitor := none } 0).2
    simp at hiff
    exact hiff hmem

/-- Witness for `destroy_deregisters_node`: destroying data node 2 of a
cluster with data nodes `[1, 2]` removes it, and the subsequent
`Cluster.destroy` teardown log contains no step for node 2. -/
theorem destroy_deregisters_node_witness :
    (2 : Nat) ∉ (ClusterState.mk [1] (some 0)).datanodes
    ∧ TStep.dropDataNode 2 ∉
        (cluster_destroy (fun _ => false) false (ClusterState.mk [1] (some 0))).1 :=
  (destroy_deregisters_node false false 2 ⟨[1, 2], some 0⟩ (fun _ => false)
      (by decide)).1 ⟨[1], some 0⟩ rfl

/-! ## Process environment (tests/pgautofailover_utils.py:50-63, 189-197)

`Cluster.__init__` begins with

    os.environ["PG_REGRESS_SOCK_DIR"] = ""
    os.environ["PG_AUTOCTL_DEBUG"] = ""
    os.environ["PGHOST"] = "localhost"

before creating the `VirtualLAN` (`self.datanodes = []`,
`self.monitor = None`).  No code reached from `Cluster.destroy`
(`DataNode.destroy`, `MonitorNode.destroy`, `PGAutoCtl`,
`VirtualLAN.destroy`) writes to or deletes from `os.environ`: the only
state `VirtualLAN.destroy` restores is the bridge-nf-call-iptables
sysctl file, which is not the process environment. -/

/-- The process environment, `os.environ`. -/
def Env := String → Option String

/-- Assignment `os.environ[key] = value`. -/
def envSet (e : Env) (key value : String) : Env :=
  fun x => if x = key then some value else e x

/-- The `os.environ` writes performed by `Cluster.__init__`. -/
def cluster_init_env (e : Env) : Env :=
  envSet (envSet (envSet e "PG_REGRESS_SOCK_DIR" "") "PG_AUTOCTL_DEBUG" "") "PGHOST" "localhost"

/-- Embedding of `Cluster.__init__`'s environment writes together with the initial
node-collection state (`monitor = None`, `datanodes = []`), the writes
happening before any node is created. -/
def cluster_init (e : Env) : Env × ClusterState :=
  (cluster_init_env e, ⟨[], none⟩)

/-- Effect of `Cluster.destroy` on `os.environ`: the identity — neither
`Cluster.destroy` nor anything it calls touches the environment. -/
def cluster_destroy_env (e : Env) : Env := e

/-- The empty starting environment used in the counterexample. -/
def emptyEnv : Env := fun _ => none

/-- Claim C7 (amended): the three environment variables are set once by
`Cluster` construction, before any node exists (`datanodes = []`,
`monitor = None` at that point) — but they are *never* unset or
restored: `Cluster.destroy` leaves the environment exactly as
construction left it, so the modification persists for the whole test
process. -/
theorem cluster_env_set_once_never_restored (e : Env) :
    (cluster_init e).1 "PG_REGRESS_SOCK_DIR" = some ""
    ∧ (cluster_init e).1 "PG_AUTOCTL_DEBUG" = some ""
    ∧ (cluster_init e).1 "PGHOST" = some "localhost"
    ∧ (cluster_init e).2 = ⟨[], none⟩
    ∧ cluster_destroy_env ((cluster_init e).1) = (cluster_init e).1 := by
  refine ⟨?_, ?_, ?_, rfl, rfl⟩ <;>
    simp [cluster_init, cluster_init_env, envSet]

/-- Claim C7 (counterexample): starting from an environment where `PGHOST`
is unset, after `Cluster.__init__` followed by `Cluster.destroy` the
variable is still set to `"localhost"` — `Cluster.destroy` does leave a
lingering modification of the process environment, refuting
"unset/restored at suite end". -/
theorem cluster_destroy_env_not_restored :
    cluster_destroy_env ((cluster_init emptyEnv).1) "PGHOST" = some "localhost"
    ∧ emptyEnv "PGHOST" = none
    ∧ cluster_destroy_env ((cluster_init emptyEnv).1) "PG_AUTOCTL_DEBUG" = some ""
    ∧ cluster_destroy_env ((cluster_init emptyEnv).1) "PG_REGRESS_SOCK_DIR" = some "" := by
  refine ⟨?_, rfl, ?_, ?_⟩ <;>
    simp [cluster_destroy_env, cluster_init, cluster_init_env, envSet, emptyEnv]
